import Mathlib

/-!
Shallow embedding of the unusual-options bot's signal-detection and
paper-trade lifecycle core (src/utils/calculations.ts,
src/services/signalDetector.ts, src/services/paperTrading.ts, the dashboard
and the Supabase-backed store).

Conventions of the embedding:
* JavaScript numbers are modelled as rationals (ℚ).  A division whose JS
  result is non-finite (Infinity/NaN, from dividing by zero) is modelled by
  the marker `none` of an `Option ℚ` where the surrounding code can observe
  it (`calculatePnL`), since ℚ has no non-finite values.
* Calendar dates are modelled at day granularity as integers (a day index);
  wall-clock timestamps as rational milliseconds.  `differenceInDays` of two
  day indices is plain subtraction.
* Database-assigned string identities are modelled as naturals handed out by
  a counter in the store state.
* JS truthiness is modelled per type: a number is truthy iff it is nonzero,
  a string iff it is nonempty, a nullable value iff it is present and its
  payload is truthy.  `x || y` on numbers is `jsOr`.
* Template-string diagnostics keep their fixed text; the interpolated
  numbers are elided (no claim concerns the reason strings).
-/

/-- JS `Math.round`: round half toward positive infinity. -/
def jsRound (x : ℚ) : ℤ := ⌊x + 1/2⌋

/-- The source's 2-decimal rounding idiom `Math.round(x * 100) / 100`. -/
def round2 (x : ℚ) : ℚ := (jsRound (x * 100) : ℚ) / 100

/-- Postgres `ROUND(numeric, 2)`: round half away from zero at 2 decimal
places (used by the performance_summary view of supabase_schema.sql). -/
def sqlRound2 (x : ℚ) : ℚ :=
  if 0 ≤ x then (⌊x * 100 + 1/2⌋ : ℚ) / 100 else -((⌊-x * 100 + 1/2⌋ : ℚ) / 100)

/-- JS `prior || fallback` on a nullable number: `null`, `undefined` and `0`
are all falsy and select the fallback. -/
def jsOr (prior : Option ℚ) (fallback : ℚ) : ℚ :=
  match prior with
  | some x => if x = 0 then fallback else x
  | none => fallback

/-- JS `x || null` on a number: 0 becomes null. -/
def jsNumOrNull (x : ℚ) : Option ℚ := if x = 0 then none else some x

/-- JS `s || null` on a string: the empty string becomes null. -/
def jsStrOrNull (s : String) : Option String := if s = "" then none else some s

/-- Quote instrument kind (`type` field of TradierQuote). -/
inductive QuoteType where
  | stock | option | etf | index
deriving DecidableEq, Repr

/-- Option side (`option_type`). -/
inductive OptionType where
  | call | put
deriving DecidableEq, Repr

/-- MoneynessCategory of src/types/index.ts. -/
inductive MoneynessCategory where
  | deep_itm | itm | atm | otm | deep_otm
deriving DecidableEq, Repr

/-- SignalStrength of src/types/index.ts. -/
inductive SignalStrength where
  | high | medium | low
deriving DecidableEq, Repr

/-- Exit reasons of PaperTradingService.exitTrade. -/
inductive ExitReason where
  | manual | time_limit | expired | stop_loss | take_profit
deriving DecidableEq, Repr

/-- PaperTrade.status values; `open` is a Lean keyword so the open state is
spelled `opened`. -/
inductive TradeStatus where
  | opened | closed | expired
deriving DecidableEq, Repr

/-- PaperTrade.direction values. -/
inductive Direction where
  | long | short
deriving DecidableEq, Repr

/-- PaperTradeConfig.exitStrategy values. -/
inductive ExitStrategy where
  | time_limit | manual
deriving DecidableEq, Repr

/-- TradierGreeks of src/types/index.ts. -/
structure TradierGreeks where
  delta : ℚ
  gamma : ℚ
  theta : ℚ
  vega : ℚ
  rho : ℚ
  phi : ℚ
  bid_iv : ℚ
  mid_iv : ℚ
  ask_iv : ℚ
  smv_vol : ℚ
  updated_at : String
deriving DecidableEq, Repr

/-- TradierQuote of src/types/index.ts, restricted to the fields the core
reads (analyzeQuote and monitorOpenTrades); OHLC, 52-week and exchange-date
fields are never consumed by the core and are omitted.  `volume` and
`open_interest` are optional because analyzeQuote checks them against
`undefined`; `expiration_date` is a day index (see the file comment). -/
structure TradierQuote where
  symbol : String
  description : String
  exch : String
  type : QuoteType
  last : ℚ
  change : ℚ
  volume : Option ℚ
  bid : ℚ
  ask : ℚ
  underlying : Option String
  strike : Option ℚ
  change_percentage : ℚ
  trade_date : ℚ
  bidsize : ℚ
  asksize : ℚ
  open_interest : Option ℚ
  contract_size : Option ℚ
  expiration_date : Option ℤ
  option_type : Option OptionType
  greeks : Option TradierGreeks
deriving DecidableEq, Repr

/-- UnusualSignal of src/types/index.ts.  Database identities are naturals,
dates day indices, `detected_at` a store-assigned timestamp. -/
structure UnusualSignal where
  id : Option ℕ := none
  symbol : String
  ticker : String
  description : Option String
  option_type : OptionType
  strike : ℚ
  expiration_date : ℤ
  dte : ℤ
  contract_size : ℚ
  volume : ℚ
  open_interest : ℚ
  volume_oi_ratio : ℚ
  premium : ℚ
  last_price : ℚ
  bid : Option ℚ
  ask : Option ℚ
  bid_size : Option ℚ
  ask_size : Option ℚ
  bid_ask_spread_pct : Option ℚ
  underlying_price : ℚ
  underlying_change : Option ℚ
  underlying_change_pct : Option ℚ
  delta : Option ℚ
  gamma : Option ℚ
  theta : Option ℚ
  vega : Option ℚ
  rho : Option ℚ
  phi : Option ℚ
  implied_volatility : Option ℚ
  greeks_updated_at : Option String
  moneyness : Option ℚ
  moneyness_category : Option MoneynessCategory
  signal_strength : Option SignalStrength
  detected_at : Option ℤ := none
  trade_date : Option ℚ
  exchange : Option String
deriving DecidableEq, Repr

/-- PaperTrade of src/types/index.ts; `entry_time`/`exit_time` are rational
millisecond timestamps, identities naturals. -/
structure PaperTrade where
  id : Option ℕ := none
  signal_id : ℕ
  direction : Direction
  quantity : ℚ
  entry_price : ℚ
  entry_time : Option ℚ := none
  entry_underlying_price : Option ℚ
  exit_price : Option ℚ
  exit_time : Option ℚ
  exit_underlying_price : Option ℚ
  exit_reason : Option ExitReason
  pnl : Option ℚ
  pnl_pct : Option ℚ
  max_pnl : Option ℚ
  max_pnl_pct : Option ℚ
  min_pnl : Option ℚ
  min_pnl_pct : Option ℚ
  status : TradeStatus
  notes : Option String
deriving DecidableEq, Repr

/-- SignalConfig of src/types/index.ts. -/
structure SignalConfig where
  minPremium : ℚ
  minVolumeOiRatio : ℚ
  minAbsoluteVolume : ℚ
  maxDte : ℚ
  minOtmPercent : ℚ
deriving DecidableEq, Repr

/-- PaperTradeConfig of src/services/paperTrading.ts. -/
structure PaperTradeConfig where
  autoEnter : Bool
  exitStrategy : ExitStrategy
  timeLimitHours : ℚ
  defaultQuantity : ℚ
deriving DecidableEq, Repr

/-- calculateDTE of src/utils/calculations.ts: calendar-day difference of
the expiration day index and today's day index. -/
def calculateDTE (expirationDate : ℤ) (now : ℤ) : ℤ := expirationDate - now

/-- calculatePremium of src/utils/calculations.ts. -/
def calculatePremium (lastPrice : ℚ) (volume : ℚ) (contractSize : ℚ := 100) : ℚ :=
  lastPrice * volume * contractSize

/-- calculateBidAskSpread of src/utils/calculations.ts. -/
def calculateBidAskSpread (bid : ℚ) (ask : ℚ) : ℚ :=
  if bid ≤ 0 ∨ ask ≤ 0 then 0
  else ((ask - bid) / ((bid + ask) / 2)) * 100

/-- calculateMoneyness of src/utils/calculations.ts.  The JS division by an
underlying price of 0 yields a non-finite value; no consumer in the core
feeds it 0, and ℚ division then returns the junk value 0. -/
def calculateMoneyness (strike : ℚ) (underlyingPrice : ℚ) (optionType : OptionType) : ℚ :=
  match optionType with
  | OptionType.call => ((strike - underlyingPrice) / underlyingPrice) * 100
  | OptionType.put => ((underlyingPrice - strike) / underlyingPrice) * 100

/-- categorizeMoneyness of src/utils/calculations.ts. -/
def categorizeMoneyness (moneynessPercent : ℚ) : MoneynessCategory :=
  if moneynessPercent < -10 then MoneynessCategory.deep_itm
  else if moneynessPercent < -2 then MoneynessCategory.itm
  else if |moneynessPercent| ≤ 2 then MoneynessCategory.atm
  else if moneynessPercent ≤ 10 then MoneynessCategory.otm
  else MoneynessCategory.deep_otm

/-- calculateSignalStrength of src/utils/calculations.ts. -/
def calculateSignalStrength (volumeOiRatio : ℚ) (premium : ℚ) (dte : ℚ)
    (moneynessPercent : ℚ) : SignalStrength :=
  if volumeOiRatio ≥ 5 ∧ premium ≥ 100000 ∧ dte ≤ 30 ∧ |moneynessPercent| ≥ 10 then
    SignalStrength.high
  else if volumeOiRatio ≥ 3 ∧ premium ≥ 25000 ∧ dte ≤ 45 then
    SignalStrength.medium
  else
    SignalStrength.low

/-- calculateMidPrice of src/utils/calculations.ts. -/
def calculateMidPrice (bid : ℚ) (ask : ℚ) : ℚ :=
  if bid ≤ 0 ∨ ask ≤ 0 then 0 else (bid + ask) / 2

/-- Result of calculatePnL.  `pnlPct = none` marks the non-finite JS value
(Infinity or NaN) produced when the entry price is 0. -/
structure PnLResult where
  pnl : ℚ
  pnlPct : Option ℚ
deriving DecidableEq, Repr

/-- calculatePnL of src/utils/calculations.ts.  The JS code divides by
`entryPrice` unconditionally; when it is 0 the percentage is non-finite,
marked here by `none`. -/
def calculatePnL (entryPrice : ℚ) (exitPrice : ℚ) (quantity : ℚ)
    (contractSize : ℚ := 100) : PnLResult :=
  { pnl := round2 ((exitPrice - entryPrice) * quantity * contractSize)
    pnlPct :=
      if entryPrice = 0 then none
      else some (round2 (((exitPrice - entryPrice) / entryPrice) * 100)) }

/-- Result of meetsUnusualCriteria (`{ meets, reason? }`); the interpolated
numbers of the reason templates are elided. -/
structure CheckResult where
  meets : Bool
  reason : Option String := none
deriving DecidableEq, Repr

/-- meetsUnusualCriteria of src/utils/calculations.ts: the five checks in
source order, short-circuiting on the first failure. -/
def meetsUnusualCriteria (volume : ℚ) (openInterest : ℚ) (premium : ℚ) (dte : ℚ)
    (config : SignalConfig) : CheckResult :=
  if volume < config.minAbsoluteVolume then
    { meets := false, reason := some ("Volume below minimum") }
  else if openInterest ≤ 0 then
    { meets := false, reason := some ("Open interest is zero") }
  else if volume / openInterest < config.minVolumeOiRatio then
    { meets := false, reason := some ("Volume/OI ratio below minimum") }
  else if premium < config.minPremium then
    { meets := false, reason := some ("Premium below minimum") }
  else if dte > config.maxDte ∨ dte < 0 then
    { meets := false, reason := some ("DTE outside valid range") }
  else
    { meets := true }

/-- The UnusualSignal record literal analyzeQuote builds on success
(src/services/signalDetector.ts lines 93-128), with the quote fields already
destructured (`exp`, `strike`, `volume`, `oi`, `undl` are the required
fields analyzeQuote has validated as present).  The `x || null` coercions of
the source are `jsNumOrNull`/`jsStrOrNull`. -/
def signalOf (opt und : TradierQuote) (oty : OptionType) (exp : ℤ) (strike volume oi : ℚ)
    (undl : String) (now : ℤ) : UnusualSignal :=
  { symbol := opt.symbol
    ticker := undl
    description := jsStrOrNull opt.description
    option_type := oty
    strike := strike
    expiration_date := exp
    dte := calculateDTE exp now
    contract_size := opt.contract_size.getD 100
    volume := volume
    open_interest := oi
    volume_oi_ratio := round2 (if 0 < oi then volume / oi else 0)
    premium := round2 (calculatePremium opt.last volume (opt.contract_size.getD 100))
    last_price := opt.last
    bid := jsNumOrNull opt.bid
    ask := jsNumOrNull opt.ask
    bid_size := jsNumOrNull opt.bidsize
    ask_size := jsNumOrNull opt.asksize
    bid_ask_spread_pct :=
      if opt.bid ≠ 0 ∧ opt.ask ≠ 0 then some (calculateBidAskSpread opt.bid opt.ask)
      else none
    underlying_price := und.last
    underlying_change := jsNumOrNull und.change
    underlying_change_pct := jsNumOrNull und.change_percentage
    delta := (opt.greeks.map TradierGreeks.delta).bind jsNumOrNull
    gamma := (opt.greeks.map TradierGreeks.gamma).bind jsNumOrNull
    theta := (opt.greeks.map TradierGreeks.theta).bind jsNumOrNull
    vega := (opt.greeks.map TradierGreeks.vega).bind jsNumOrNull
    rho := (opt.greeks.map TradierGreeks.rho).bind jsNumOrNull
    phi := (opt.greeks.map TradierGreeks.phi).bind jsNumOrNull
    implied_volatility :=
      -- greeks?.mid_iv || greeks?.smv_vol || null
      match opt.greeks with
      | none => none
      | some g => if g.mid_iv ≠ 0 then some g.mid_iv else jsNumOrNull g.smv_vol
    greeks_updated_at := (opt.greeks.map TradierGreeks.updated_at).bind jsStrOrNull
    moneyness := some (round2 (calculateMoneyness strike und.last oty))
    moneyness_category := some (categorizeMoneyness (calculateMoneyness strike und.last oty))
    signal_strength :=
      some (calculateSignalStrength (if 0 < oi then volume / oi else 0)
        (calculatePremium opt.last volume (opt.contract_size.getD 100))
        ((calculateDTE exp now : ℤ) : ℚ) (calculateMoneyness strike und.last oty))
    trade_date := jsNumOrNull opt.trade_date
    exchange := jsStrOrNull opt.exch }

/-- SignalDetector.analyzeQuote of src/services/signalDetector.ts: validates
the option/underlying pair, computes the derived metrics, applies
meetsUnusualCriteria, and returns the populated signal or none.  The
"prefer OTM" block of the source (lines 87-90) is an empty conditional and
has no effect.  JS truthiness of the required-field guard: a strike of 0 and
an empty underlying ticker are falsy and rejected. -/
def analyzeQuote (config : SignalConfig) (optionQuote underlyingQuote : TradierQuote)
    (now : ℤ) : Option UnusualSignal :=
  if optionQuote.type ≠ QuoteType.option then none
  else
    match optionQuote.option_type with
    | none => none
    | some oty =>
      if underlyingQuote.type = QuoteType.stock ∨ underlyingQuote.type = QuoteType.etf then
        match optionQuote.expiration_date, optionQuote.strike, optionQuote.volume,
            optionQuote.open_interest, optionQuote.underlying with
        | some exp, some strike, some volume, some oi, some undl =>
          if strike = 0 ∨ undl = "" then none
          else
            if (meetsUnusualCriteria volume oi
                (calculatePremium optionQuote.last volume (optionQuote.contract_size.getD 100))
                ((calculateDTE exp now : ℤ) : ℚ) config).meets then
              some (signalOf optionQuote underlyingQuote oty exp strike volume oi undl now)
            else none
        | _, _, _, _, _ => none
      else none

/-- The paper_trades table state behind SupabaseService
(src/clients/supabase.ts, reproduced in LOVABLE_INTEGRATION.md): the stored
rows, the identity counter standing in for the uuid default of the `id`
column, and the database clock backing the `entry_time ... DEFAULT NOW()`
column of supabase_schema.sql. -/
structure Store where
  trades : List PaperTrade
  nextId : ℕ
  now : ℚ
deriving DecidableEq, Repr

/-- SupabaseService.getTradeBySignalId: selects the rows with the given
signal_id and applies `.single()`, which errors (PGRST116) unless exactly
one row matches; the method maps the no-row error — and, via the catch, any
other error such as a multi-row match — to null. -/
def getTradeBySignalId (store : Store) (signalId : ℕ) : Option PaperTrade :=
  match store.trades.filter (fun t => t.signal_id == signalId) with
  | [t] => some t
  | _ => none

/-- SupabaseService.createPaperTrade: inserts the row and returns it with
the database-assigned id and default entry_time; the unique_trade
UNIQUE (signal_id) constraint of supabase_schema.sql rejects a second row
for the same signal (the client rethrows the error, modelled as `none` with
the table unchanged). -/
def createPaperTrade (store : Store) (trade : PaperTrade) : Option PaperTrade × Store :=
  if store.trades.any (fun t => t.signal_id == trade.signal_id) then (none, store)
  else
    let inserted := { trade with
      id := some store.nextId
      entry_time := some (trade.entry_time.getD store.now) }
    (some inserted, { store with trades := store.trades ++ [inserted], nextId := store.nextId + 1 })

/-- The notes template of enterTrade: `${signal.signal_strength}` renders a
null strength as the string "null". -/
def signalStrengthText : Option SignalStrength → String
  | some SignalStrength.high => "high"
  | some SignalStrength.medium => "medium"
  | some SignalStrength.low => "low"
  | none => "null"

/-- PaperTradingService.enterTrade of src/services/paperTrading.ts: returns
the existing trade when one is already stored for the signal's identity,
otherwise inserts an open trade at the bid/ask mid price (falling back to
the last price when either side is missing or 0, per JS truthiness).  An
insert error — the unique_trade violation rethrown by createPaperTrade, or
the not-null violation when the signal has no persisted identity — lands in
the catch block, which returns null with the table unchanged. -/
def enterTrade (config : PaperTradeConfig) (store : Store) (signal : UnusualSignal) :
    Option PaperTrade × Store :=
  match signal.id with
  | some sid =>
    match getTradeBySignalId store sid with
    | some existingTrade => (some existingTrade, store)
    | none =>
      let entryPrice :=
        match signal.bid, signal.ask with
        | some b, some a =>
          if b ≠ 0 ∧ a ≠ 0 then calculateMidPrice b a else signal.last_price
        | _, _ => signal.last_price
      let trade : PaperTrade :=
        { signal_id := sid
          direction := Direction.long
          quantity := config.defaultQuantity
          entry_price := entryPrice
          entry_underlying_price := some signal.underlying_price
          exit_price := none
          exit_time := none
          exit_underlying_price := none
          exit_reason := none
          pnl := none
          pnl_pct := none
          max_pnl := none
          max_pnl_pct := none
          min_pnl := none
          min_pnl_pct := none
          status := TradeStatus.opened
          notes := some ("Auto-entered from " ++ signalStrengthText signal.signal_strength
            ++ " strength signal") }
      createPaperTrade store trade
  | none => (none, store)

/-- The running-extremum update of updateTrade for the percent P/L, whose
current value can be the non-finite marker (entry price 0): JS `Math.max`
with a non-finite argument stays non-finite, so the marker propagates. -/
def updPctMax (prior : Option ℚ) (current : Option ℚ) : Option ℚ :=
  match current with
  | some p => some (max (jsOr prior p) p)
  | none => none

/-- `Math.min` counterpart of `updPctMax`. -/
def updPctMin (prior : Option ℚ) (current : Option ℚ) : Option ℚ :=
  match current with
  | some p => some (min (jsOr prior p) p)
  | none => none

/-- PaperTradingService.updateTrade of src/services/paperTrading.ts:
recomputes the current P/L and persists the four running extrema, via the
JS idiom `Math.max(trade.max_pnl || pnl, pnl)` (a stored extremum of 0 is
falsy and replaced by the current value).  Nothing else on the trade row is
written. -/
def updateTrade (trade : PaperTrade) (currentPrice : ℚ) : PaperTrade :=
  let r := calculatePnL trade.entry_price currentPrice trade.quantity 100
  { trade with
    max_pnl := some (max (jsOr trade.max_pnl r.pnl) r.pnl)
    min_pnl := some (min (jsOr trade.min_pnl r.pnl) r.pnl)
    max_pnl_pct := updPctMax trade.max_pnl_pct r.pnlPct
    min_pnl_pct := updPctMin trade.min_pnl_pct r.pnlPct }

/-- PaperTradingService.exitTrade of src/services/paperTrading.ts: computes
the final P/L and writes the exit fields and closed status unconditionally;
the trade's current status is never inspected. -/
def exitTrade (trade : PaperTrade) (exitPrice : ℚ) (underlyingPrice : ℚ)
    (reason : ExitReason) (now : ℚ) : PaperTrade :=
  let r := calculatePnL trade.entry_price exitPrice trade.quantity 100
  { trade with
    exit_price := some exitPrice
    exit_time := some now
    exit_underlying_price := some underlyingPrice
    exit_reason := some reason
    pnl := some r.pnl
    pnl_pct := r.pnlPct
    status := TradeStatus.closed }

/-- The per-trade body of PaperTradingService.monitorOpenTrades
(src/services/paperTrading.ts lines 205-249), with the quote lookups
resolved: computes the current mid price (JS truthiness on bid/ask),
applies updateTrade, then the time-limit check, then — unconditionally, not
as an else-branch — the expiration check.  `now` is in milliseconds; the
signal's expiration day index converts to milliseconds, and `daysToExpiry`
is `Math.floor` of the millisecond difference over a day.  A missing
`entry_time` makes `hoursOpen` NaN in JS, whose comparison is false.
Returns the trade's final row together with the list of exits performed
during the pass. -/
def monitorStep (config : PaperTradeConfig) (trade : PaperTrade) (signal : UnusualSignal)
    (quote : TradierQuote) (underlyingPrice : ℚ) (now : ℚ) : PaperTrade × List ExitReason :=
  let currentPrice :=
    if quote.bid ≠ 0 ∧ quote.ask ≠ 0 then calculateMidPrice quote.bid quote.ask
    else quote.last
  let t1 := updateTrade trade currentPrice
  let afterTime : PaperTrade × List ExitReason :=
    if config.exitStrategy = ExitStrategy.time_limit then
      match trade.entry_time with
      | some entryTime =>
        if (now - entryTime) / (1000 * 60 * 60) ≥ config.timeLimitHours then
          (exitTrade t1 currentPrice underlyingPrice ExitReason.time_limit now,
            [ExitReason.time_limit])
        else (t1, [])
      | none => (t1, [])
    else (t1, [])
  let daysToExpiry : ℤ :=
    ⌊((signal.expiration_date : ℚ) * (1000 * 60 * 60 * 24) - now) / (1000 * 60 * 60 * 24)⌋
  if daysToExpiry ≤ 0 then
    (exitTrade afterTime.1 currentPrice underlyingPrice ExitReason.expired now,
      afterTime.2 ++ [ExitReason.expired])
  else afterTime

/-- The time-limit condition of the monitoring pass as monitorOpenTrades
evaluates it: the strategy is time_limit and the hours elapsed since entry
reach the configured limit (a missing entry time never matches, like the
NaN comparison in JS). -/
def timeLimitHit (config : PaperTradeConfig) (trade : PaperTrade) (now : ℚ) : Prop :=
  config.exitStrategy = ExitStrategy.time_limit ∧
    match trade.entry_time with
    | some entryTime => (now - entryTime) / (1000 * 60 * 60) ≥ config.timeLimitHours
    | none => False

/-- The expiration condition of the monitoring pass: the floored day count
to the contract's expiration is ≤ 0. -/
def expiryHit (signal : UnusualSignal) (now : ℚ) : Prop :=
  ⌊((signal.expiration_date : ℚ) * (1000 * 60 * 60 * 24) - now) / (1000 * 60 * 60 * 24)⌋ ≤ 0

/-- One row of the performance_summary view of supabase_schema.sql; the
SQL aggregates that can be NULL (over an empty filtered set, or through
NULLIF) are Options. -/
structure PerformanceSummary where
  total_trades : ℕ
  winning_trades : ℕ
  losing_trades : ℕ
  breakeven_trades : ℕ
  avg_pnl : Option ℚ
  avg_pnl_pct : Option ℚ
  max_pnl : Option ℚ
  min_pnl : Option ℚ
  total_pnl : Option ℚ
  win_rate_pct : Option ℚ
deriving DecidableEq, Repr

/-- The performance_summary view of supabase_schema.sql (read back by
SupabaseService.getPerformanceSummary through `.single()`): counts over all
paper_trades rows; winners/losers/breakevens are rows with status closed
(not expired) and pnl > 0 / < 0 / = 0 (a NULL pnl matches none of the
three); AVG/MAX/MIN/SUM aggregate the non-NULL pnl values of closed rows
and are NULL when there are none; win_rate_pct is winners over ALL closed
rows times 100 (NULL via NULLIF when no row is closed); every rational
aggregate is ROUNDed to 2 decimals. -/
def performanceSummary (trades : List PaperTrade) : PerformanceSummary :=
  let closed := trades.filter (fun t => decide (t.status = TradeStatus.closed))
  let pnls := closed.filterMap PaperTrade.pnl
  let pnlPcts := closed.filterMap PaperTrade.pnl_pct
  let winning := (pnls.filter (fun p => decide (0 < p))).length
  { total_trades := trades.length
    winning_trades := winning
    losing_trades := (pnls.filter (fun p => decide (p < 0))).length
    breakeven_trades := (pnls.filter (fun p => decide (p = 0))).length
    avg_pnl :=
      if pnls.length = 0 then none else some (sqlRound2 (pnls.sum / (pnls.length : ℚ)))
    avg_pnl_pct :=
      if pnlPcts.length = 0 then none
      else some (sqlRound2 (pnlPcts.sum / (pnlPcts.length : ℚ)))
    max_pnl := (pnls.max?).map sqlRound2
    min_pnl := (pnls.min?).map sqlRound2
    total_pnl := if pnls.length = 0 then none else some (sqlRound2 pnls.sum)
    win_rate_pct :=
      if closed.length = 0 then none
      else some (sqlRound2 ((winning : ℚ) / (closed.length : ℚ) * 100)) }

/-- The record PaperTradingService.getPerformanceStats returns.  The counts
are integers because the source derives them by subtraction. -/
structure PerformanceStats where
  totalTrades : ℤ
  openTrades : ℤ
  closedTrades : ℤ
  winningTrades : ℤ
  losingTrades : ℤ
  winRate : ℚ
  totalPnL : ℚ
  avgPnL : ℚ
  bestTrade : ℚ
  worstTrade : ℚ
deriving DecidableEq, Repr

/-- PaperTradingService.getPerformanceStats of src/services/paperTrading.ts:
maps the view row onto the reported stats — open trades are
`total - winning - losing` and closed trades `winning + losing`; the
source's `|| 0` fallbacks turn the view's NULL aggregates into 0 (and are
identities on the always-present counts). -/
def getPerformanceStats (trades : List PaperTrade) : PerformanceStats :=
  let summary := performanceSummary trades
  { totalTrades := (summary.total_trades : ℤ)
    openTrades := (summary.total_trades : ℤ) - (summary.winning_trades : ℤ)
      - (summary.losing_trades : ℤ)
    closedTrades := (summary.winning_trades : ℤ) + (summary.losing_trades : ℤ)
    winningTrades := (summary.winning_trades : ℤ)
    losingTrades := (summary.losing_trades : ℤ)
    winRate := jsOr summary.win_rate_pct 0
    totalPnL := jsOr summary.total_pnl 0
    avgPnL := jsOr summary.avg_pnl 0
    bestTrade := jsOr summary.max_pnl 0
    worstTrade := jsOr summary.min_pnl 0 }

/-! Concrete fixtures used by the claims' witnesses and counterexamples. -/

/-- An empty paper_trades table with the database clock at 0. -/
def store0 : Store := { trades := [], nextId := 0, now := 0 }

/-- The scanner's paper-trading configuration (src/index.ts): auto-enter,
24-hour time limit, one contract. -/
def defaultPaperConfig : PaperTradeConfig :=
  { autoEnter := true
    exitStrategy := ExitStrategy.time_limit
    timeLimitHours := 24
    defaultQuantity := 1 }

/-- A trade already in the terminal closed state, with exit fields set. -/
def closedTradeC2 : PaperTrade :=
  { signal_id := 1
    direction := Direction.long
    quantity := 1
    entry_price := 2
    entry_underlying_price := some 10
    exit_price := some 5
    exit_time := some 100
    exit_underlying_price := some 9
    exit_reason := some ExitReason.manual
    pnl := some 300
    pnl_pct := some 150
    max_pnl := some 300
    max_pnl_pct := some 150
    min_pnl := some 0
    min_pnl_pct := some 0
    status := TradeStatus.closed
    notes := none }

/-- An open trade whose stored running maximum is exactly 0. -/
def tradeC9 : PaperTrade :=
  { signal_id := 2
    direction := Direction.long
    quantity := 1
    entry_price := 1
    entry_underlying_price := some 10
    exit_price := none
    exit_time := none
    exit_underlying_price := none
    exit_reason := none
    pnl := none
    pnl_pct := none
    max_pnl := some 0
    max_pnl_pct := some 0
    min_pnl := some 0
    min_pnl_pct := some 0
    status := TradeStatus.opened
    notes := none }

/-- A persisted signal (identity 7) whose bid is negative and ask positive,
so the mid-price sentinel 0 becomes the entry price. -/
def signalC10 : UnusualSignal :=
  { id := some 7
    symbol := "PLTR251219C00040000"
    ticker := "PLTR"
    description := none
    option_type := OptionType.call
    strike := 40
    expiration_date := 100
    dte := 10
    contract_size := 100
    volume := 100
    open_interest := 10
    volume_oi_ratio := 10
    premium := 1000
    last_price := 0
    bid := some (-1)
    ask := some 2
    bid_size := none
    ask_size := none
    bid_ask_spread_pct := none
    underlying_price := 38
    underlying_change := none
    underlying_change_pct := none
    delta := none
    gamma := none
    theta := none
    vega := none
    rho := none
    phi := none
    implied_volatility := none
    greeks_updated_at := none
    moneyness := some 5
    moneyness_category := some MoneynessCategory.otm
    signal_strength := some SignalStrength.low
    trade_date := none
    exchange := none }

/-- A closed trade with the given final pnl, for the aggregation fixtures. -/
def closedTradeWithPnl (sid : ℕ) (p : ℚ) : PaperTrade :=
  { signal_id := sid
    direction := Direction.long
    quantity := 1
    entry_price := 1
    entry_underlying_price := none
    exit_price := some 2
    exit_time := some 500
    exit_underlying_price := none
    exit_reason := some ExitReason.time_limit
    pnl := some p
    pnl_pct := some p
    max_pnl := some p
    max_pnl_pct := some p
    min_pnl := some p
    min_pnl_pct := some p
    status := TradeStatus.closed
    notes := none }

/-- Three closed trades with pnl 100, -50 and 0: the spec's aggregation
example. -/
def tradesC5 : List PaperTrade :=
  [closedTradeWithPnl 11 100, closedTradeWithPnl 12 (-50), closedTradeWithPnl 13 0]

/-- An open trade entered at time 0 (ms) at price 1. -/
def tradeC3 : PaperTrade :=
  { signal_id := 3
    direction := Direction.long
    quantity := 1
    entry_price := 1
    entry_time := some 0
    entry_underlying_price := some 10
    exit_price := none
    exit_time := none
    exit_underlying_price := none
    exit_reason := none
    pnl := none
    pnl_pct := none
    max_pnl := none
    max_pnl_pct := none
    min_pnl := none
    min_pnl_pct := none
    status := TradeStatus.opened
    notes := none }

/-- The signal behind tradeC3: its contract expires on day 0, so it is
already expired at the monitoring time of 24 hours. -/
def signalC3 : UnusualSignal :=
  { signalC10 with id := some 3, expiration_date := 0 }

/-- A current option quote for the monitoring pass: bid 1, ask 3, so the
mid price is 2. -/
def quoteC3 : TradierQuote :=
  { symbol := "PLTR251219C00040000"
    description := ""
    exch := "Z"
    type := QuoteType.option
    last := 2
    change := 0
    volume := some 100
    bid := 1
    ask := 3
    underlying := some ("PLTR")
    strike := some 40
    change_percentage := 0
    trade_date := 0
    bidsize := 1
    asksize := 1
    open_interest := some 10
    contract_size := some 100
    expiration_date := some 0
    option_type := some OptionType.call
    greeks := none }

/-- A permissive detection configuration (all thresholds 0, DTE up to 100). -/
def cfgC7 : SignalConfig :=
  { minPremium := 0
    minVolumeOiRatio := 0
    minAbsoluteVolume := 0
    maxDte := 100
    minOtmPercent := 0 }

/-- An option quote whose last price (1/3) and bid/ask spread (bid 1, ask 2)
have no finite 2-decimal representation. -/
def optC7 : TradierQuote :=
  { symbol := "NVDA250919C00175000"
    description := ""
    exch := "Z"
    type := QuoteType.option
    last := 1/3
    change := 0
    volume := some 100
    bid := 1
    ask := 2
    underlying := some ("NVDA")
    strike := some 175
    change_percentage := 0
    trade_date := 0
    bidsize := 10
    asksize := 10
    open_interest := some 10
    contract_size := some 100
    expiration_date := some 20
    option_type := some OptionType.call
    greeks := none }

/-- The underlying stock quote for optC7. -/
def undC7 : TradierQuote :=
  { symbol := "NVDA"
    description := "NVIDIA"
    exch := "Q"
    type := QuoteType.stock
    last := 180
    change := 0
    volume := none
    bid := 0
    ask := 0
    underlying := none
    strike := none
    change_percentage := 0
    trade_date := 0
    bidsize := 0
    asksize := 0
    open_interest := none
    contract_size := none
    expiration_date := none
    option_type := none
    greeks := none }

/-- The signal analyzeQuote produces for cfgC7/optC7/undC7 at day 0. -/
def sC7 : UnusualSignal :=
  signalOf optC7 undC7 OptionType.call 20 175 100 10 ("NVDA") 0


/-- The five checks of meetsUnusualCriteria as one proposition: the result
accepts exactly when every threshold holds. -/
theorem meetsUnusualCriteria_meets_iff (volume openInterest premium dte : ℚ)
    (config : SignalConfig) :
    (meetsUnusualCriteria volume openInterest premium dte config).meets = true ↔
      (config.minAbsoluteVolume ≤ volume ∧ 0 < openInterest
        ∧ config.minVolumeOiRatio ≤ volume / openInterest
        ∧ config.minPremium ≤ premium ∧ 0 ≤ dte ∧ dte ≤ config.maxDte) := by
  unfold meetsUnusualCriteria
  split_ifs with h1 h2 h3 h4 h5 <;>
    simp_all [not_lt, not_le, not_or] <;>
    first
    | linarith
    | (rintro a b c d e; linarith)
    | (intro a b c d e; linarith)
    | (intro a; rcases h5 with h5 | h5 <;> linarith)

/-- Inversion of a successful analyzeQuote run: every guard passed, the
required fields were present and truthy, the criteria check accepted, and
the returned signal is the record signalOf builds. -/
theorem analyzeQuote_some_inv {cfg : SignalConfig} {opt und : TradierQuote} {now : ℤ}
    {s : UnusualSignal} (h : analyzeQuote cfg opt und now = some s) :
    opt.type = QuoteType.option
    ∧ (und.type = QuoteType.stock ∨ und.type = QuoteType.etf)
    ∧ ∃ oty exp strike volume oi undl,
        opt.option_type = some oty
        ∧ opt.expiration_date = some exp
        ∧ opt.strike = some strike ∧ ¬ (strike = 0)
        ∧ opt.volume = some volume
        ∧ opt.open_interest = some oi
        ∧ opt.underlying = some undl ∧ ¬ (undl = "")
        ∧ (meetsUnusualCriteria volume oi
            (calculatePremium opt.last volume (opt.contract_size.getD 100))
            ((calculateDTE exp now : ℤ) : ℚ) cfg).meets = true
        ∧ s = signalOf opt und oty exp strike volume oi undl now := by
  unfold analyzeQuote at h
  repeat' split at h
  any_goals exact Option.noConfusion h
  rename_i ht xoty oty hoty hund xe xs xv xo xu exp strike volume oi undl hexp hstrike hvol hoi hundl hne hmeets
  push_neg at ht hne
  rw [Option.some_inj] at h
  exact ⟨ht, hund, oty, exp, strike, volume, oi, undl, hoty, hexp, hstrike, hne.1, hvol,
    hoi, hundl, hne.2, hmeets, h.symm⟩

/-- C6: categorizeMoneyness is total and assigns every percent value to
exactly one of the five categories, with boundaries: deep_itm iff p < -10,
itm iff -10 ≤ p < -2, atm iff -2 ≤ p ≤ 2, otm iff 2 < p ≤ 10, deep_otm iff
p > 10; in particular -10 ↦ itm, -2 ↦ atm, 2 ↦ atm, 10 ↦ otm. -/
theorem categorizeMoneyness_partition (p : ℚ) :
    (categorizeMoneyness p = MoneynessCategory.deep_itm ↔ p < -10)
    ∧ (categorizeMoneyness p = MoneynessCategory.itm ↔ -10 ≤ p ∧ p < -2)
    ∧ (categorizeMoneyness p = MoneynessCategory.atm ↔ -2 ≤ p ∧ p ≤ 2)
    ∧ (categorizeMoneyness p = MoneynessCategory.otm ↔ 2 < p ∧ p ≤ 10)
    ∧ (categorizeMoneyness p = MoneynessCategory.deep_otm ↔ 10 < p)
    ∧ categorizeMoneyness (-10) = MoneynessCategory.itm
    ∧ categorizeMoneyness (-2) = MoneynessCategory.atm
    ∧ categorizeMoneyness 2 = MoneynessCategory.atm
    ∧ categorizeMoneyness 10 = MoneynessCategory.otm := by
  refine ⟨?_, ?_, ?_, ?_, ?_, by decide, by decide, by decide, by decide⟩ <;>
    (unfold categorizeMoneyness;
     split_ifs with h1 h2 h3 h4 <;>
       simp_all [abs_le, not_lt, not_le] <;>
       first
       | linarith
       | (constructor <;> linarith)
       | (rintro ⟨a, b⟩; linarith)
       | (intro a; linarith))

/-- C4 (supporting evaluation): calculatePnL does not reject an entry price
of 0 — it returns a result whose percentage is the non-finite marker from
the unguarded division. -/
theorem calculatePnL_zero_entry_total :
    calculatePnL 0 1 1 100 = { pnl := 100, pnlPct := none } := by
  norm_num [calculatePnL, round2, jsRound]

/-- C2 (amended): exitTrade never inspects the trade's status: for every
trade — terminal or not — it overwrites the exit fields with the new exit
data, recomputes the P/L from the stored entry price, and sets the status
to closed; no invalid-state error path exists. -/
theorem exitTrade_no_terminal_check (trade : PaperTrade) (exitPrice underlyingPrice : ℚ)
    (reason : ExitReason) (now : ℚ) :
    (exitTrade trade exitPrice underlyingPrice reason now).status = TradeStatus.closed
    ∧ (exitTrade trade exitPrice underlyingPrice reason now).exit_price = some exitPrice
    ∧ (exitTrade trade exitPrice underlyingPrice reason now).exit_time = some now
    ∧ (exitTrade trade exitPrice underlyingPrice reason now).exit_underlying_price
        = some underlyingPrice
    ∧ (exitTrade trade exitPrice underlyingPrice reason now).exit_reason = some reason
    ∧ (exitTrade trade exitPrice underlyingPrice reason now).pnl
        = some (calculatePnL trade.entry_price exitPrice trade.quantity 100).pnl
    ∧ (exitTrade trade exitPrice underlyingPrice reason now).entry_price = trade.entry_price :=
  ⟨rfl, rfl, rfl, rfl, rfl, rfl, rfl⟩

/-- C2 (counterexample): exiting the already-closed closedTradeC2 raises no
error and silently overwrites its exit price and reason. -/
theorem exitTrade_closed_overwrite_cex :
    closedTradeC2.status = TradeStatus.closed
    ∧ closedTradeC2.exit_price = some 5
    ∧ closedTradeC2.exit_reason = some ExitReason.manual
    ∧ (exitTrade closedTradeC2 7 3 ExitReason.time_limit 999).exit_price = some 7
    ∧ (exitTrade closedTradeC2 7 3 ExitReason.time_limit 999).exit_reason
        = some ExitReason.time_limit
    ∧ exitTrade closedTradeC2 7 3 ExitReason.time_limit 999 ≠ closedTradeC2 := by
  norm_num [exitTrade, closedTradeC2, calculatePnL, round2, jsRound]

/-- C9 (amended): updateTrade leaves status (and every non-extremum field)
unchanged and updates each running extremum by comparison against the prior
stored extremum — but only when that prior value is truthy: a prior
extremum of exactly 0 (like a null one) is replaced by the current P/L, so
max_pnl can decrease through 0. -/
theorem updateTrade_extrema (trade : PaperTrade) (currentPrice : ℚ) :
    (updateTrade trade currentPrice).status = trade.status
    ∧ (updateTrade trade currentPrice).exit_reason = trade.exit_reason
    ∧ (updateTrade trade currentPrice).entry_price = trade.entry_price
    ∧ ((trade.max_pnl = none ∨ trade.max_pnl = some 0) →
        (updateTrade trade currentPrice).max_pnl
          = some (calculatePnL trade.entry_price currentPrice trade.quantity 100).pnl)
    ∧ (∀ m, trade.max_pnl = some m → m ≠ 0 →
        (updateTrade trade currentPrice).max_pnl
          = some (max m (calculatePnL trade.entry_price currentPrice trade.quantity 100).pnl))
    ∧ ((trade.min_pnl = none ∨ trade.min_pnl = some 0) →
        (updateTrade trade currentPrice).min_pnl
          = some (calculatePnL trade.entry_price currentPrice trade.quantity 100).pnl)
    ∧ (∀ m, trade.min_pnl = some m → m ≠ 0 →
        (updateTrade trade currentPrice).min_pnl
          = some (min m (calculatePnL trade.entry_price currentPrice trade.quantity 100).pnl))
    ∧ (∀ q, (calculatePnL trade.entry_price currentPrice trade.quantity 100).pnlPct = some q →
        ((trade.max_pnl_pct = none ∨ trade.max_pnl_pct = some 0) →
          (updateTrade trade currentPrice).max_pnl_pct = some q)
        ∧ (∀ m, trade.max_pnl_pct = some m → m ≠ 0 →
          (updateTrade trade currentPrice).max_pnl_pct = some (max m q))
        ∧ ((trade.min_pnl_pct = none ∨ trade.min_pnl_pct = some 0) →
          (updateTrade trade currentPrice).min_pnl_pct = some q)
        ∧ (∀ m, trade.min_pnl_pct = some m → m ≠ 0 →
          (updateTrade trade currentPrice).min_pnl_pct = some (min m q))) := by
  refine ⟨rfl, rfl, rfl, ?_, ?_, ?_, ?_, ?_⟩
  · rintro (h | h) <;> simp [updateTrade, jsOr, h]
  · intro m hm hne; simp [updateTrade, jsOr, hm, hne]
  · rintro (h | h) <;> simp [updateTrade, jsOr, h]
  · intro m hm hne; simp [updateTrade, jsOr, hm, hne]
  · intro q hq
    refine ⟨?_, ?_, ?_, ?_⟩
    · rintro (h | h) <;> simp [updateTrade, updPctMax, jsOr, h, hq]
    · intro m hm hne; simp [updateTrade, updPctMax, jsOr, hm, hne, hq]
    · rintro (h | h) <;> simp [updateTrade, updPctMin, jsOr, h, hq]
    · intro m hm hne; simp [updateTrade, updPctMin, jsOr, hm, hne, hq]

/-- C9 (counterexample): on a trade whose stored max_pnl is exactly 0, a
monitoring pass with current P/L -100 sets max_pnl to -100, not to
max(0, -100) = 0 — the running maximum decreases. -/
theorem updateTrade_zero_extremum_cex :
    tradeC9.max_pnl = some 0
    ∧ (updateTrade tradeC9 0).max_pnl = some (-100)
    ∧ (updateTrade tradeC9 0).max_pnl ≠ some (max 0 (-100)) := by
  norm_num [updateTrade, tradeC9, calculatePnL, jsOr, round2, jsRound, updPctMax, updPctMin]

/-- C10: enterTrade enforces no positive entry price: for the persisted
signalC10 (bid -1, ask 2, no stored trade) the mid-price sentinel 0 becomes
the entry price of a created open trade, and every later P/L computation
for an entry price of 0 yields the non-finite percentage marker. -/
theorem enterTrade_zero_entry_price :
    calculateMidPrice (-1) 2 = 0
    ∧ (enterTrade defaultPaperConfig store0 signalC10).1.map PaperTrade.entry_price = some 0
    ∧ (enterTrade defaultPaperConfig store0 signalC10).1.map PaperTrade.status
        = some TradeStatus.opened
    ∧ (∀ exitPrice quantity : ℚ, (calculatePnL 0 exitPrice quantity 100).pnlPct = none) := by
  refine ⟨by norm_num [calculateMidPrice],
    by norm_num [enterTrade, signalC10, defaultPaperConfig, store0, getTradeBySignalId,
      createPaperTrade, calculateMidPrice],
    by norm_num [enterTrade, signalC10, defaultPaperConfig, store0, getTradeBySignalId,
      createPaperTrade, calculateMidPrice],
    fun e q => by simp [calculatePnL]⟩

/-- C5 (counterexample): for three closed trades with pnl 100, -50 and 0,
getPerformanceStats reports closedTrades = 2, not 3 — the breakeven trade
is excluded from closedTrades (and surfaces in openTrades instead, though
no trade is open). -/
theorem getPerformanceStats_breakeven_cex :
    (getPerformanceStats tradesC5).winningTrades = 1
    ∧ (getPerformanceStats tradesC5).losingTrades = 1
    ∧ (getPerformanceStats tradesC5).closedTrades = 2
    ∧ (getPerformanceStats tradesC5).closedTrades ≠ 3
    ∧ (getPerformanceStats tradesC5).openTrades = 1
    ∧ (∀ t ∈ tradesC5, t.status = TradeStatus.closed) := by
  refine ⟨?_, ?_, ?_, ?_, ?_, by decide⟩ <;>
    norm_num [getPerformanceStats, performanceSummary, tradesC5, closedTradeWithPnl,
      sqlRound2, jsOr, List.filter_cons, List.filter_nil, List.filterMap_cons,
      List.filterMap_nil, Option.some_ne_none]

/-- C5 (amended): a closed trade with pnl exactly 0 counts toward neither
winningTrades nor losingTrades nor the reported closedTrades (which is
winning + losing); for pnl values [100, -50, 0] the aggregator reports
winningTrades 1, losingTrades 1, closedTrades 2, openTrades 1,
winRate 33.33 and totalPnL 50, and winRate is 0 when no closed trades
exist. -/
theorem getPerformanceStats_aggregation :
    (getPerformanceStats tradesC5).winningTrades = 1
    ∧ (getPerformanceStats tradesC5).losingTrades = 1
    ∧ (getPerformanceStats tradesC5).closedTrades = 2
    ∧ (getPerformanceStats tradesC5).openTrades = 1
    ∧ (getPerformanceStats tradesC5).winRate = 3333/100
    ∧ (getPerformanceStats tradesC5).totalPnL = 50
    ∧ (∀ trades : List PaperTrade,
        trades.filter (fun t => decide (t.status = TradeStatus.closed)) = [] →
        (getPerformanceStats trades).winRate = 0) := by
  refine ⟨?_, ?_, ?_, ?_, ?_, ?_, ?_⟩
  case _ => norm_num [getPerformanceStats, performanceSummary, tradesC5, closedTradeWithPnl,
    sqlRound2, jsOr, List.filter_cons, List.filter_nil, List.filterMap_cons,
    List.filterMap_nil, Option.some_ne_none]
  case _ => norm_num [getPerformanceStats, performanceSummary, tradesC5, closedTradeWithPnl,
    sqlRound2, jsOr, List.filter_cons, List.filter_nil, List.filterMap_cons,
    List.filterMap_nil, Option.some_ne_none]
  case _ => norm_num [getPerformanceStats, performanceSummary, tradesC5, closedTradeWithPnl,
    sqlRound2, jsOr, List.filter_cons, List.filter_nil, List.filterMap_cons,
    List.filterMap_nil, Option.some_ne_none]
  case _ => norm_num [getPerformanceStats, performanceSummary, tradesC5, closedTradeWithPnl,
    sqlRound2, jsOr, List.filter_cons, List.filter_nil, List.filterMap_cons,
    List.filterMap_nil, Option.some_ne_none]
  case _ =>
    norm_num [getPerformanceStats, performanceSummary, tradesC5, closedTradeWithPnl,
      sqlRound2, jsOr, List.filter_cons, List.filter_nil, List.filterMap_cons,
      List.filterMap_nil, Option.some_ne_none]
  case _ => norm_num [getPerformanceStats, performanceSummary, tradesC5, closedTradeWithPnl,
    sqlRound2, jsOr, List.filter_cons, List.filter_nil, List.filterMap_cons,
    List.filterMap_nil, List.sum_cons, List.sum_nil, Option.some_ne_none]
  case _ =>
    intro trades h
    simp only [getPerformanceStats, performanceSummary]
    rw [h]
    simp [jsOr]

/-- A successful run of analyzeQuote on the concrete fixture pair: it
accepts and returns exactly the record sC7. -/
theorem analyzeQuote_fixture : analyzeQuote cfgC7 optC7 undC7 0 = some sC7 := by
  simp only [analyzeQuote, optC7, undC7, cfgC7, sC7]
  norm_num [meetsUnusualCriteria, calculatePremium, calculateDTE]
  intro hcontra
  simp at hcontra

/-- C1: analyzeQuote returns a signal only if all five meetsUnusualCriteria
checks pass (restated both through the check itself and as the five
threshold inequalities on the returned signal's fields), and for an
accepted input, lowering any single threshold input just below its minimum
— the volume below minAbsoluteVolume, the open interest to 0, the open
interest high enough that the volume/OI ratio drops below minVolumeOiRatio,
the last price low enough that the premium drops below minPremium, or the
expiration so that the DTE leaves [0, maxDte] — turns the result into
none. -/
theorem analyzeQuote_criteria (cfg : SignalConfig) (opt und : TradierQuote) (now : ℤ)
    (s : UnusualSignal) (h : analyzeQuote cfg opt und now = some s) :
    (meetsUnusualCriteria s.volume s.open_interest
        (calculatePremium s.last_price s.volume s.contract_size) ((s.dte : ℤ) : ℚ) cfg).meets
      = true
    ∧ (cfg.minAbsoluteVolume ≤ s.volume ∧ 0 < s.open_interest
        ∧ cfg.minVolumeOiRatio ≤ s.volume / s.open_interest
        ∧ cfg.minPremium ≤ calculatePremium s.last_price s.volume s.contract_size
        ∧ (0 : ℚ) ≤ ((s.dte : ℤ) : ℚ) ∧ ((s.dte : ℤ) : ℚ) ≤ cfg.maxDte)
    ∧ (∀ v', v' < cfg.minAbsoluteVolume →
        analyzeQuote cfg { opt with volume := some v' } und now = none)
    ∧ analyzeQuote cfg { opt with open_interest := some 0 } und now = none
    ∧ (∀ oi', 0 < oi' → s.volume / oi' < cfg.minVolumeOiRatio →
        analyzeQuote cfg { opt with open_interest := some oi' } und now = none)
    ∧ (∀ last', calculatePremium last' s.volume s.contract_size < cfg.minPremium →
        analyzeQuote cfg { opt with last := last' } und now = none)
    ∧ (∀ exp', ((calculateDTE exp' now : ℤ) : ℚ) < 0
          ∨ cfg.maxDte < ((calculateDTE exp' now : ℤ) : ℚ) →
        analyzeQuote cfg { opt with expiration_date := some exp' } und now = none) := by
  obtain ⟨ht, hund, oty, exp, strike, volume, oi, undl, hoty, hexp, hstrike, hstrike0,
    hvol, hoi, hundl, hundl0, hmeets, hs⟩ := analyzeQuote_some_inv h
  subst hs
  have hc := (meetsUnusualCriteria_meets_iff volume oi
    (calculatePremium opt.last volume (opt.contract_size.getD 100))
    ((calculateDTE exp now : ℤ) : ℚ) cfg).mp hmeets
  refine ⟨?_, ?_, ?_, ?_, ?_, ?_, ?_⟩
  · simpa [signalOf] using hmeets
  · simpa [signalOf] using hc
  · intro v' hv'
    have hf : ¬ ((meetsUnusualCriteria v' oi
        (calculatePremium opt.last v' (opt.contract_size.getD 100))
        ((calculateDTE exp now : ℤ) : ℚ) cfg).meets = true) := by
      rw [meetsUnusualCriteria_meets_iff]
      rintro ⟨a, -, -, -, -, -⟩
      linarith
    simp [analyzeQuote, ht, hoty, hund, hexp, hstrike, hvol, hoi, hundl, hstrike0,
      hundl0, hf]
  · have hf : ¬ ((meetsUnusualCriteria volume 0
        (calculatePremium opt.last volume (opt.contract_size.getD 100))
        ((calculateDTE exp now : ℤ) : ℚ) cfg).meets = true) := by
      rw [meetsUnusualCriteria_meets_iff]
      rintro ⟨-, b, -, -, -, -⟩
      exact lt_irrefl 0 b
    simp [analyzeQuote, ht, hoty, hund, hexp, hstrike, hvol, hoi, hundl, hstrike0,
      hundl0, hf]
  · intro oi' hoi' hratio
    have hf : ¬ ((meetsUnusualCriteria volume oi'
        (calculatePremium opt.last volume (opt.contract_size.getD 100))
        ((calculateDTE exp now : ℤ) : ℚ) cfg).meets = true) := by
      rw [meetsUnusualCriteria_meets_iff]
      rintro ⟨-, -, c, -, -, -⟩
      simp [signalOf] at hratio
      linarith
    simp [analyzeQuote, ht, hoty, hund, hexp, hstrike, hvol, hoi, hundl, hstrike0,
      hundl0, hf]
  · intro last' hprem
    have hf : ¬ ((meetsUnusualCriteria volume oi
        (calculatePremium last' volume (opt.contract_size.getD 100))
        ((calculateDTE exp now : ℤ) : ℚ) cfg).meets = true) := by
      rw [meetsUnusualCriteria_meets_iff]
      rintro ⟨-, -, -, d, -, -⟩
      simp [signalOf] at hprem
      linarith
    simp [analyzeQuote, ht, hoty, hund, hexp, hstrike, hvol, hoi, hundl, hstrike0,
      hundl0, hf]
  · intro exp' hdte
    have hf : ¬ ((meetsUnusualCriteria volume oi
        (calculatePremium opt.last volume (opt.contract_size.getD 100))
        ((calculateDTE exp' now : ℤ) : ℚ) cfg).meets = true) := by
      rw [meetsUnusualCriteria_meets_iff]
      rintro ⟨-, -, -, -, e1, e2⟩
      rcases hdte with hd | hd <;> linarith
    simp [analyzeQuote, ht, hoty, hund, hexp, hstrike, hvol, hoi, hundl, hstrike0,
      hundl0, hf]

/-- C1 (witness): the criteria conclusion instantiated on the accepted
fixture pair. -/
theorem analyzeQuote_criteria_witness :
    (meetsUnusualCriteria sC7.volume sC7.open_interest
        (calculatePremium sC7.last_price sC7.volume sC7.contract_size)
        ((sC7.dte : ℤ) : ℚ) cfgC7).meets = true :=
  (analyzeQuote_criteria cfgC7 optC7 undC7 0 sC7 analyzeQuote_fixture).1

/-- C7 (amended): every signal analyzeQuote returns carries volume_oi_ratio,
premium and moneyness rounded to 2 decimal places, but last_price is the
quote's last price verbatim and bid_ask_spread_pct the raw spread — neither
is rounded. -/
theorem analyzeQuote_rounding (cfg : SignalConfig) (opt und : TradierQuote) (now : ℤ)
    (s : UnusualSignal) (h : analyzeQuote cfg opt und now = some s) :
    s.volume_oi_ratio = round2 (if 0 < s.open_interest then s.volume / s.open_interest else 0)
    ∧ s.premium = round2 (calculatePremium s.last_price s.volume s.contract_size)
    ∧ s.moneyness = some (round2 (calculateMoneyness s.strike s.underlying_price s.option_type))
    ∧ s.last_price = opt.last
    ∧ s.underlying_price = und.last
    ∧ s.bid_ask_spread_pct
        = (if opt.bid ≠ 0 ∧ opt.ask ≠ 0 then some (calculateBidAskSpread opt.bid opt.ask)
           else none) := by
  obtain ⟨-, -, oty, exp, strike, volume, oi, undl, -, -, -, -, -, -, -, -, -, hs⟩ :=
    analyzeQuote_some_inv h
  subst hs
  refine ⟨?_, ?_, ?_, ?_, ?_, ?_⟩ <;> simp [signalOf]

/-- C7 (witness): the rounding conclusion instantiated on the fixture. -/
theorem analyzeQuote_rounding_witness :
    sC7.last_price = optC7.last
    ∧ sC7.premium = round2 (calculatePremium sC7.last_price sC7.volume sC7.contract_size) :=
  ⟨(analyzeQuote_rounding cfgC7 optC7 undC7 0 sC7 analyzeQuote_fixture).2.2.2.1,
   (analyzeQuote_rounding cfgC7 optC7 undC7 0 sC7 analyzeQuote_fixture).2.1⟩

/-- C7 (counterexample): the fixture's returned signal has
bid_ask_spread_pct = 200/3 and last_price = 1/3, and neither value equals
its own 2-decimal rounding — so not every monetary/ratio value of a
returned signal is rounded to 2 decimal places. -/
theorem analyzeQuote_unrounded_fields_cex :
    analyzeQuote cfgC7 optC7 undC7 0 = some sC7
    ∧ sC7.bid_ask_spread_pct = some (200/3)
    ∧ round2 (200/3) ≠ (200/3 : ℚ)
    ∧ sC7.last_price = 1/3
    ∧ round2 (1/3) ≠ (1/3 : ℚ) := by
  refine ⟨analyzeQuote_fixture, ?_, ?_, ?_, ?_⟩
  · norm_num [sC7, signalOf, optC7, undC7, calculateBidAskSpread, jsNumOrNull]
  · norm_num [round2, jsRound]
  · norm_num [sC7, signalOf, optC7, undC7]
  · norm_num [round2, jsRound]

/-- C8: enterTrade is idempotent per persisted signal identity: under the
schema's unique_trade invariant (at most one stored row per signal_id), one
call returns a trade, and a second call for the same signal returns the
very same trade and leaves the table untouched (no duplicate row). -/
theorem enterTrade_idempotent (config : PaperTradeConfig) (store : Store)
    (signal : UnusualSignal) (sid : ℕ) (h : signal.id = some sid)
    (huniq : (store.trades.filter (fun t => t.signal_id == sid)).length ≤ 1) :
    (enterTrade config store signal).1.isSome = true
    ∧ (enterTrade config (enterTrade config store signal).2 signal).1
        = (enterTrade config store signal).1
    ∧ (enterTrade config (enterTrade config store signal).2 signal).2
        = (enterTrade config store signal).2 := by
  rcases hfilter : store.trades.filter (fun t => t.signal_id == sid) with _ | ⟨e, rest⟩
  · have hnone : getTradeBySignalId store sid = none := by
      simp [getTradeBySignalId, hfilter]
    have hany : store.trades.any (fun t => t.signal_id == sid) = false := by
      rw [List.any_eq_false]
      intro t ht
      have h2 := List.filter_eq_nil.mp hfilter t ht
      simpa using h2
    simp only [enterTrade, h, hnone, createPaperTrade, getTradeBySignalId]
    simp [hany, List.filter_append, hfilter]
  · have hrest : rest = [] := by
      rw [hfilter] at huniq
      simpa using huniq
    subst hrest
    have hsome : getTradeBySignalId store sid = some e := by
      simp [getTradeBySignalId, hfilter]
    simp [enterTrade, h, hsome]

/-- C8 (witness): entering the persisted signalC10 twice into the empty
table returns the same trade and the same table state both times. -/
theorem enterTrade_idempotent_witness :
    (enterTrade defaultPaperConfig (enterTrade defaultPaperConfig store0 signalC10).2 signalC10).1
      = (enterTrade defaultPaperConfig store0 signalC10).1
    ∧ (enterTrade defaultPaperConfig (enterTrade defaultPaperConfig store0 signalC10).2 signalC10).2
      = (enterTrade defaultPaperConfig store0 signalC10).2 :=
  ⟨(enterTrade_idempotent defaultPaperConfig store0 signalC10 7 rfl (by decide)).2.1,
   (enterTrade_idempotent defaultPaperConfig store0 signalC10 7 rfl (by decide)).2.2⟩

/-- C3 (amended): in one monitoring pass over an open trade the time-limit
rule is evaluated first, but the expiry rule is not gated on it: when both
conditions hold the trade is exited twice in the same pass and ends it
closed with exit reason expired (the expiry exit overwrites the time-limit
exit); when only one rule matches, that rule's single exit happens; when
neither matches, the trade stays open and untouched. -/
theorem monitorStep_exit_rules (config : PaperTradeConfig) (trade : PaperTrade)
    (signal : UnusualSignal) (quote : TradierQuote) (underlyingPrice now : ℚ)
    (hopen : trade.status = TradeStatus.opened) :
    (timeLimitHit config trade now ∧ expiryHit signal now →
      (monitorStep config trade signal quote underlyingPrice now).2
          = [ExitReason.time_limit, ExitReason.expired]
        ∧ (monitorStep config trade signal quote underlyingPrice now).1.status
          = TradeStatus.closed
        ∧ (monitorStep config trade signal quote underlyingPrice now).1.exit_reason
          = some ExitReason.expired)
    ∧ (timeLimitHit config trade now ∧ ¬ expiryHit signal now →
      (monitorStep config trade signal quote underlyingPrice now).2 = [ExitReason.time_limit]
        ∧ (monitorStep config trade signal quote underlyingPrice now).1.status
          = TradeStatus.closed
        ∧ (monitorStep config trade signal quote underlyingPrice now).1.exit_reason
          = some ExitReason.time_limit)
    ∧ (¬ timeLimitHit config trade now ∧ expiryHit signal now →
      (monitorStep config trade signal quote underlyingPrice now).2 = [ExitReason.expired]
        ∧ (monitorStep config trade signal quote underlyingPrice now).1.status
          = TradeStatus.closed
        ∧ (monitorStep config trade signal quote underlyingPrice now).1.exit_reason
          = some ExitReason.expired)
    ∧ (¬ timeLimitHit config trade now ∧ ¬ expiryHit signal now →
      (monitorStep config trade signal quote underlyingPrice now).2 = []
        ∧ (monitorStep config trade signal quote underlyingPrice now).1.status
          = TradeStatus.opened
        ∧ (monitorStep config trade signal quote underlyingPrice now).1.exit_reason
          = trade.exit_reason) := by
  refine ⟨?_, ?_, ?_, ?_⟩
  · rintro ⟨⟨hstrat, htl⟩, hexp⟩
    rcases het : trade.entry_time with _ | et
    · rw [het] at htl; exact absurd htl (by simp)
    · rw [het] at htl
      have htl2 : config.timeLimitHours ≤ (now - et) / (1000 * 60 * 60) := htl
      simp only [expiryHit] at hexp
      simp [monitorStep, hstrat, het, htl2, hexp, exitTrade, updateTrade]
  · rintro ⟨⟨hstrat, htl⟩, hexp⟩
    rcases het : trade.entry_time with _ | et
    · rw [het] at htl; exact absurd htl (by simp)
    · rw [het] at htl
      have htl2 : config.timeLimitHours ≤ (now - et) / (1000 * 60 * 60) := htl
      simp only [expiryHit] at hexp
      simp [monitorStep, hstrat, het, htl2, hexp, exitTrade, updateTrade]
  · rintro ⟨htl, hexp⟩
    simp only [expiryHit] at hexp
    by_cases hstrat : config.exitStrategy = ExitStrategy.time_limit
    · rcases het : trade.entry_time with _ | et
      · simp [monitorStep, hstrat, het, hexp, exitTrade, updateTrade]
      · have hcond : ¬ ((now - et) / (1000 * 60 * 60) ≥ config.timeLimitHours) := by
          intro hc
          exact htl ⟨hstrat, by rw [het]; exact hc⟩
        simp [monitorStep, hstrat, het, hcond, hexp, exitTrade, updateTrade]
    · simp [monitorStep, hstrat, hexp, exitTrade, updateTrade]
  · rintro ⟨htl, hexp⟩
    simp only [expiryHit] at hexp
    by_cases hstrat : config.exitStrategy = ExitStrategy.time_limit
    · rcases het : trade.entry_time with _ | et
      · simp [monitorStep, hstrat, het, hexp, updateTrade, hopen]
      · have hcond : ¬ ((now - et) / (1000 * 60 * 60) ≥ config.timeLimitHours) := by
          intro hc
          exact htl ⟨hstrat, by rw [het]; exact hc⟩
        simp [monitorStep, hstrat, het, hcond, hexp, updateTrade, hopen]
    · simp [monitorStep, hstrat, hexp, updateTrade, hopen]

/-- C3 (counterexample): monitoring the open tradeC3 (entered at time 0)
at 24 hours, with its contract already expired, performs two exits in the
single pass — time_limit first, then expired — and the trade ends the pass
with exit reason expired, not time_limit. -/
theorem monitorStep_double_exit_cex :
    tradeC3.status = TradeStatus.opened
    ∧ (monitorStep defaultPaperConfig tradeC3 signalC3 quoteC3 9 86400000).2
        = [ExitReason.time_limit, ExitReason.expired]
    ∧ ¬ ((monitorStep defaultPaperConfig tradeC3 signalC3 quoteC3 9 86400000).2.length ≤ 1)
    ∧ (monitorStep defaultPaperConfig tradeC3 signalC3 quoteC3 9 86400000).1.exit_reason
        = some ExitReason.expired
    ∧ (monitorStep defaultPaperConfig tradeC3 signalC3 quoteC3 9 86400000).1.status
        = TradeStatus.closed := by
  refine ⟨rfl, ?_, ?_, ?_, ?_⟩ <;>
    norm_num [monitorStep, tradeC3, signalC3, signalC10, quoteC3, defaultPaperConfig,
      updateTrade, exitTrade, calculatePnL, calculateMidPrice, jsOr, updPctMax, updPctMin,
      round2, jsRound]

/-- C3 (witness): the exit-rule conclusion instantiated on the concrete
double-exit pass. -/
theorem monitorStep_exit_rules_witness :
    (monitorStep defaultPaperConfig tradeC3 signalC3 quoteC3 9 86400000).1.status
      = TradeStatus.closed :=
  ((monitorStep_exit_rules defaultPaperConfig tradeC3 signalC3 quoteC3 9 86400000 rfl).1
    ⟨⟨rfl, by norm_num [tradeC3, defaultPaperConfig]⟩,
      by norm_num [expiryHit, signalC3, signalC10]⟩).2.1
